import Mathlib

/-!
Shallow embedding of the ARPAS docker-stats service (src/docker-stats/server.py)
together with the spec-level job/aggregation model, and proofs of the
specification claims about it.

Conventions of the embedding:
* Python floats are modelled as rationals (ℚ); Python ints as ℤ.
* `float(s)` applied to a backend scalar string either converts or raises
  `ValueError`/`TypeError`; this partial conversion is modelled by
  `PromScalar`/`parseScalar` (a scalar is either a parsed number or invalid).
* Python `int(x)` truncates toward zero: `pyTrunc`.
* Python `round(x, 2)` is modelled by `pyRound2` (round to two decimal places;
  the tie-breaking of binary floats is abstracted to integer rounding).
* Python dicts keyed by timestamp are modelled by `AList` (finite maps with
  no duplicate keys); `sorted(d.keys())` is modelled by `sortedKeys`.
* The external HTTP calls to Prometheus are modelled by oracle functions
  (`MetricName → QueryOutcome` for the five per-metric range queries, and
  `String → ServiceOutcome` for a whole per-service fetch); the embedded code
  is exactly the pure computation the handler performs on their results.
-/

namespace DockerStats

/-- Python `int(q)`: truncation toward zero. -/
def pyTrunc (q : ℚ) : ℤ := if 0 ≤ q then ⌊q⌋ else ⌈q⌉

/-- Python `round(q, 2)`: rounding to two decimal places. -/
def pyRound2 (q : ℚ) : ℚ := ((round (q * 100) : ℤ) : ℚ) / 100

/-- A scalar string coming back from the metrics backend. `float(value_str)`
either converts it to a number or raises; `invalid` stands for any string
rejected by the conversion. -/
inductive PromScalar where
  | num (q : ℚ)
  | invalid
deriving DecidableEq

/-- Python `float(value_str)` as a partial conversion: `none` models the
`ValueError`/`TypeError` case. -/
def parseScalar : PromScalar → Option ℚ
  | .num q => some q
  | .invalid => none

/-- The `cpu` sub-dict of a data point (server.py line 165). -/
structure CpuStats where
  percent : ℚ
deriving DecidableEq

/-- The `memory` sub-dict of a data point (server.py line 166). -/
structure MemStats where
  usage : ℤ
  limit : ℤ
  percent : ℚ
deriving DecidableEq

/-- The `network` sub-dict of a data point (server.py line 167). -/
structure NetStats where
  rxRate : ℚ
  txRate : ℚ
  rxBytes : ℤ
  txBytes : ℤ
deriving DecidableEq

/-- One combined data point of the historical time series
(the dict built at server.py lines 162-168). -/
structure Entry where
  timestamp : ℤ
  container_name : String
  cpu : CpuStats
  memory : MemStats
  network : NetStats
deriving DecidableEq

/-- The freshly initialised data point (server.py lines 162-168). -/
def initEntry (timestamp_ms : ℤ) (container_name : String) : Entry :=
  { timestamp := timestamp_ms
    container_name := container_name
    cpu := { percent := 0 }
    memory := { usage := 0, limit := 0, percent := 0 }
    network := { rxRate := 0, txRate := 0, rxBytes := 0, txBytes := 0 } }

/-- The five metric keys of the `queries` dict (server.py lines 115-121). -/
inductive MetricName where
  | cpu_percent
  | memory_usage
  | memory_limit
  | network_rx
  | network_tx
deriving DecidableEq

/-- Iteration order of `queries.items()` (insertion order of the dict,
server.py lines 115-121). -/
def queries : List MetricName :=
  [.cpu_percent, .memory_usage, .memory_limit, .network_rx, .network_tx]

/-- The parse-and-assign step for one value (server.py lines 170-186): on a
successful conversion the field selected by `metric_name` is written; a failed
conversion leaves the data point untouched (the except clause only prints). -/
def applyMetric (metric_name : MetricName) (value_str : PromScalar) (e : Entry) : Entry :=
  match parseScalar value_str with
  | none => e
  | some value =>
    match metric_name with
    | .cpu_percent => { e with cpu := { percent := pyRound2 value } }
    | .memory_usage => { e with memory := { e.memory with usage := pyTrunc value } }
    | .memory_limit => { e with memory := { e.memory with limit := pyTrunc value } }
    | .network_rx => { e with network := { e.network with rxRate := pyRound2 value } }
    | .network_tx => { e with network := { e.network with txRate := pyRound2 value } }

/-- The `all_metrics` dict: timestamp in milliseconds → combined data point. -/
abbrev AllMetrics : Type := AList (fun _ : ℤ => Entry)

/-- Lookup in the `all_metrics` dict. -/
def AllMetrics.lookup (m : AllMetrics) (k : ℤ) : Option Entry :=
  AList.lookup k (m : AList (fun _ : ℤ => Entry))

/-- Store into the `all_metrics` dict. -/
def AllMetrics.store (m : AllMetrics) (k : ℤ) (e : Entry) : AllMetrics :=
  AList.insert k e (m : AList (fun _ : ℤ => Entry))

/-- Keys of the `all_metrics` dict. -/
def AllMetrics.keyList (m : AllMetrics) : List ℤ :=
  AList.keys (m : AList (fun _ : ℤ => Entry))

/-- Processing of a single `(timestamp_str, value_str)` pair of one series
(server.py lines 158-186): init the data point if the timestamp is new, then
parse and assign the metric value. -/
def processValue (metric_name : MetricName) (container_name : String)
    (all_metrics : AllMetrics) (v : ℚ × PromScalar) : AllMetrics :=
  let timestamp_ms : ℤ := pyTrunc (v.1 * 1000)
  let e := (all_metrics.lookup timestamp_ms).getD (initEntry timestamp_ms container_name)
  all_metrics.store timestamp_ms (applyMetric metric_name v.2 e)

/-- One time series of a Prometheus query-range result: its label set and its
list of `(timestamp, value)` pairs. Timestamps are numeric (seconds). -/
structure Series where
  metric_labels : List (String × String)
  values : List (ℚ × PromScalar)

/-- The candidate label fields tried by `extract_container_name`
(server.py line 226). -/
def label_keys : List String :=
  ["name", "container_label_com_docker_compose_service", "container_name", "instance"]

/-- Lower-casing of a string, character by character (models Python
`str.lower()` for the ASCII names involved). -/
def lowerChars (s : String) : List Char := s.toList.map Char.toLower

/-- Contiguous-substring test on character lists. -/
def subSeq : List Char → List Char → Bool
  | n, [] => n.isEmpty
  | n, c :: h => n.isPrefixOf (c :: h) || subSeq n h

/-- Python `needle.lower() in hay.lower()`. -/
def containsCI (needle hay : String) : Bool :=
  subSeq (lowerChars needle) (lowerChars hay)

/-- The loop of `extract_container_name` over the candidate label keys
(server.py lines 226-230): a key that is present and whose value contains the
service name returns that value; otherwise the next key is tried. -/
def tryLabelKeys (metric_labels : List (String × String)) (service_name : String) :
    List String → Option String
  | [] => none
  | label_key :: rest =>
    match metric_labels.lookup label_key with
    | some nm =>
      if containsCI service_name nm then some nm
      else tryLabelKeys metric_labels service_name rest
    | none => tryLabelKeys metric_labels service_name rest

/-- `extract_container_name` (server.py lines 222-233): try the four label
keys in order, fall back to the service name. -/
def extract_container_name (metric_labels : List (String × String))
    (service_name : String) : String :=
  (tryLabelKeys metric_labels service_name label_keys).getD service_name

/-- Processing of one series of one metric's query result
(server.py lines 154-186). -/
def processSeries (service_name : String) (metric_name : MetricName)
    (all_metrics : AllMetrics) (series : Series) : AllMetrics :=
  let container_name := extract_container_name series.metric_labels service_name
  series.values.foldl (processValue metric_name container_name) all_metrics

/-- Outcome of one per-metric query-range call (server.py lines 136-195):
`skipped` covers every branch that leaves `all_metrics` untouched — non-200
response, request exception, non-success status, and an empty result list;
`success` carries the series of `result.data.result`. -/
inductive QueryOutcome where
  | skipped
  | success (series_list : List Series)

/-- Processing of one metric of the `queries` dict (server.py lines 135-195). -/
def processMetric (service_name : String) (results : MetricName → QueryOutcome)
    (all_metrics : AllMetrics) (metric_name : MetricName) : AllMetrics :=
  match results metric_name with
  | .skipped => all_metrics
  | .success series_list =>
    series_list.foldl (processSeries service_name metric_name) all_metrics

/-- The accumulation loop of `fetch_service_metrics`
(server.py lines 133-195). -/
def buildAllMetrics (service_name : String) (results : MetricName → QueryOutcome) :
    AllMetrics :=
  queries.foldl (processMetric service_name results) ∅

/-- Python `sorted(all_metrics.keys())`. -/
def sortedKeys (m : AllMetrics) : List ℤ :=
  m.keyList.mergeSort (fun a b => a ≤ b)

/-- The query step in seconds (server.py line 123). -/
def step : ℚ := 1

/-- The finalisation of one data point (server.py lines 200-211): derive the
memory percentage when the limit is positive, and the estimated cumulative
network byte counters. -/
def finalizeEntry (e : Entry) : Entry :=
  let e1 :=
    if 0 < e.memory.limit then
      { e with memory := { e.memory with
          percent := pyRound2 (((e.memory.usage : ℚ) / (e.memory.limit : ℚ)) * 100) } }
    else e
  { e1 with network := { e1.network with
      rxBytes := pyTrunc (e1.network.rxRate * step)
      txBytes := pyTrunc (e1.network.txRate * step) } }

/-- The pure computation of `fetch_service_metrics` (server.py lines 100-216)
on the results of the five range queries: accumulate `all_metrics`, then emit
the finalised data points in ascending timestamp order. The Prometheus health
gate and the outer exception handler (which return `None`) are modelled at the
endpoint level by `ServiceOutcome`. -/
def fetch_service_metrics (service_name : String)
    (results : MetricName → QueryOutcome) : List Entry :=
  let all_metrics := buildAllMetrics service_name results
  (sortedKeys all_metrics).map fun timestamp =>
    finalizeEntry ((all_metrics.lookup timestamp).getD (initEntry timestamp service_name))

/-- The parsed JSON request body of the historical-metrics endpoint.
The timestamp fields are JSON numbers when present; `simulation_type` is a
string when present. -/
structure RequestBody where
  start_time : Option ℚ
  end_time : Option ℚ
  simulation_type : Option String
deriving DecidableEq

/-- Python truthiness of an optional number (`not x` is true for an absent
field and for 0). -/
def truthy : Option ℚ → Bool
  | none => false
  | some q => q != 0

/-- Outcome of one whole `fetch_service_metrics(service, ...)` call as seen by
the endpoint loop (server.py lines 67-79): the call can raise (caught by the
per-service except), or return `None` (backend unhealthy / outer handler), or
return a list of data points. -/
inductive ServiceOutcome where
  | raises
  | value (r : Option (List Entry))

/-- The HTTP responses the historical-metrics endpoint can produce.
`badRequest` is the 400 response, `notFound` the 404, `serverError` the 500,
and `ok` carries every field of the 200 JSON payload
(server.py lines 87-94). -/
inductive Response where
  | badRequest (msg : String)
  | notFound
  | serverError
  | ok (simulation_type : String) (start_time end_time duration_ms : ℚ)
      (services : List String) (metrics : List (String × List Entry))
deriving DecidableEq

/-- The HTTP status code of a response. -/
def Response.statusCode : Response → ℕ
  | .badRequest _ => 400
  | .notFound => 404
  | .serverError => 500
  | .ok _ _ _ _ _ _ => 200

/-- Whether a response is the 200 success response. -/
def Response.isOk : Response → Bool
  | .ok _ _ _ _ _ _ => true
  | _ => false

/-- The service lists chosen by simulation type (server.py lines 48-59). -/
def serviceLabelsFor (simulation_type : String) : List String :=
  if simulation_type = "optimized" then
    ["prediction_service", "storage-service", "redis", "minio"]
  else
    ["storage-service", "minio"]

/-- The per-service collection loop (server.py lines 65-79): a raising fetch is
caught and skipped, a `None` or empty result is skipped by the truthiness test
`if service_metrics:`, and only non-empty results enter `metrics_data`.
Python dicts preserve insertion order, so `metrics_data` is an ordered
association list. -/
def collectMetrics (fetch : String → ServiceOutcome) (service_labels : List String) :
    List (String × List Entry) :=
  service_labels.filterMap fun service =>
    match fetch service with
    | .raises => none
    | .value none => none
    | .value (some service_metrics) =>
      if service_metrics.isEmpty then none else some (service, service_metrics)

/-- The historical-metrics endpoint `get_historical_metrics`
(server.py lines 19-98). The request body models `request.get_json()`:
`Except.error` stands for the case in which reading the body raises (caught by
the outer handler, producing the 500 response). Besides the response, the
second component records for which services `fetch_service_metrics` was
invoked (empty when validation rejects the request before any backend work). -/
def get_historical_metrics (body : Except Unit (Option RequestBody))
    (fetch : String → ServiceOutcome) : Response × List String :=
  match body with
  | .error _ => (.serverError, [])
  | .ok none => (.badRequest "Request body required", [])
  | .ok (some data) =>
    if !truthy data.start_time || !truthy data.end_time then
      (.badRequest "start_time and end_time required", [])
    else
      let start_time := data.start_time.getD 0
      let end_time := data.end_time.getD 0
      let simulation_type := data.simulation_type.getD "optimized"
      let service_labels := serviceLabelsFor simulation_type
      let metrics_data := collectMetrics fetch service_labels
      if metrics_data.isEmpty then (.notFound, service_labels)
      else
        (.ok simulation_type start_time end_time (end_time - start_time)
          (metrics_data.map Prod.fst) metrics_data, service_labels)

/-- Modelled from the spec: `ContainerRollup` (spec §3) — the per-container
point summary of a rollup. The rollup engine itself is not present under
src/ (only the `JOBS` registry of server.py lines 8-9 is). -/
structure ContainerRollup where
  name : String
  cpuSeconds : ℚ
  memPeakBytes : ℚ
  netBytes : ℚ
deriving DecidableEq

/-- Modelled from the spec: `GroupRollup` (spec §3). -/
structure GroupRollup where
  cpuSeconds : ℚ
  memPeakBytes : ℚ
  netBytes : ℚ
  ioBytes : ℚ
  containers : List ContainerRollup
deriving DecidableEq

/-- Modelled from the spec: the `totals` record of a `SimulationSummary`
(spec §3). -/
structure Totals where
  cpuSeconds : ℚ
  memPeakBytes : ℚ
  netBytes : ℚ
  ioBytes : ℚ
deriving DecidableEq

/-- Modelled from the spec: the per-group accumulation step of
`Aggregator.combine` (spec §4.3) — cpuSeconds/netBytes/ioBytes accumulate by
addition, memPeakBytes by maximum. -/
def combineStep (t : Totals) (g : GroupRollup) : Totals :=
  { cpuSeconds := t.cpuSeconds + g.cpuSeconds
    memPeakBytes := max t.memPeakBytes g.memPeakBytes
    netBytes := t.netBytes + g.netBytes
    ioBytes := t.ioBytes + g.ioBytes }

/-- Modelled from the spec: `Aggregator.combine` (spec §4.3) — one pass over
the group rollups applying `combineStep`, starting from all-zero totals. -/
def combine (groupRollups : List GroupRollup) : Totals :=
  groupRollups.foldl combineStep ⟨0, 0, 0, 0⟩

/-- Modelled from the spec: `TimeWindow` (spec §3); `stop` models the window's
`end` timestamp. -/
structure TimeWindow where
  start : ℚ
  stop : ℚ
deriving DecidableEq

/-- Modelled from the spec: `SimulationSummary` (spec §3). -/
structure SimulationSummary where
  simId : String
  window : TimeWindow
  perGroup : List (String × GroupRollup)
  totals : Totals
deriving DecidableEq

/-- Job status as recorded in the `JOBS` registry (server.py line 8 and
spec §3). -/
inductive JobStatus where
  | pending
  | done
  | error
deriving DecidableEq

/-- Modelled from the spec: the job record of the `JOBS` registry
(server.py line 8: jobId → {status, result, error}; spec §3). -/
structure Job where
  status : JobStatus
  result : Option SimulationSummary
  error : Option String
deriving DecidableEq

/-- Modelled from the spec: the submission payload of
`JobLifecycleManager.submit` (spec §4.1); each field is optional because the
request may omit it. -/
structure SubmitPayload where
  simId : Option String
  groups : Option (List String)
  startTs : Option ℚ
  endTs : Option ℚ

/-- Modelled from the spec: the shared job registry plus the fresh-id
allocator (spec §4.1: "allocates a fresh unique job id"). -/
structure JobsState where
  nextId : ℕ
  jobs : AList (fun _ : ℕ => Job)

/-- Modelled from the spec: `JobLifecycleManager.submit` (spec §4.1) — reject
when any field is absent (no job is created), otherwise allocate a fresh id
and store a pending job record. Returns the issued id and the new state. -/
def submit (st : JobsState) (p : SubmitPayload) : Option (ℕ × JobsState) :=
  if p.simId.isNone || p.groups.isNone || p.startTs.isNone || p.endTs.isNone then
    none
  else
    some (st.nextId,
      { nextId := st.nextId + 1
        jobs := st.jobs.insert st.nextId ⟨.pending, none, none⟩ })

/-- Modelled from the spec: the terminal outcome of a job's background
computation (spec §4.1: pending → done or pending → error). -/
inductive JobOutcome where
  | finished (result : SimulationSummary)
  | failed (msg : String)

/-- Modelled from the spec: the single terminal write of a job's background
computation (spec §4.1 and §5); a write to an unknown id leaves the registry
unchanged. -/
def finishJob (st : JobsState) (id : ℕ) (o : JobOutcome) : JobsState :=
  let record : Job :=
    match o with
    | .finished r => ⟨.done, some r, none⟩
    | .failed m => ⟨.error, none, some m⟩
  match st.jobs.lookup id with
  | none => st
  | some _ => { st with jobs := st.jobs.insert id record }

/-- Modelled from the spec: the response of `poll(jobId)` (spec §4.1). -/
inductive PollResponse where
  | notFound
  | snapshot (status : JobStatus) (result : Option SimulationSummary)
      (error : Option String)
deriving DecidableEq

/-- Modelled from the spec: `JobLifecycleManager.poll` (spec §4.1) — NotFound
for an unknown id, otherwise the current snapshot. The state is returned
alongside the response so that "reads never mutate" is a provable statement. -/
def poll (st : JobsState) (jobId : ℕ) : PollResponse × JobsState :=
  match st.jobs.lookup jobId with
  | none => (.notFound, st)
  | some job => (.snapshot job.status job.result job.error, st)

/-- Modelled from the spec: the events that touch the job registry — a
submission, or the terminal write of some job's background computation. -/
inductive Event where
  | submission (p : SubmitPayload)
  | terminal (id : ℕ) (o : JobOutcome)

/-- Modelled from the spec: the state transition of one event. -/
def applyEvent (st : JobsState) : Event → JobsState
  | .submission p =>
    match submit st p with
    | none => st
    | some (_, st') => st'
  | .terminal id o => finishJob st id o

/-- The initial server state: an empty registry (server.py line 8:
`JOBS = \x7b\x7d`). -/
def initState : JobsState := ⟨0, ∅⟩

/-- Replay of an event history from a given state. -/
def runFrom (st : JobsState) (es : List Event) : JobsState :=
  es.foldl applyEvent st

/-- Replay of an event history from the initial state. -/
def runEvents (es : List Event) : JobsState := runFrom initState es

/-- The job ids issued by the submissions of an event history starting in a
given state. -/
def issuedIdsFrom (st : JobsState) : List Event → List ℕ
  | [] => []
  | .submission p :: es =>
    match submit st p with
    | none => issuedIdsFrom st es
    | some (id, st') => id :: issuedIdsFrom st' es
  | .terminal id o :: es => issuedIdsFrom (finishJob st id o) es

/-- The job ids issued by the submissions of an event history. -/
def issuedIds (es : List Event) : List ℕ := issuedIdsFrom initState es

/-- The numeric field of a data point that the parse-and-assign step of a given
metric writes (server.py lines 174-183), as a rational. -/
def metricField : MetricName → Entry → ℚ
  | .cpu_percent, e => e.cpu.percent
  | .memory_usage, e => (e.memory.usage : ℚ)
  | .memory_limit, e => (e.memory.limit : ℚ)
  | .network_rx, e => e.network.rxRate
  | .network_tx, e => e.network.txRate

/-- Concrete query results used as a verification example: one memory-usage
sample of 50 bytes and one memory-limit sample of 200 bytes, both at
timestamp 1s. -/
def exampleResultsMem : MetricName → QueryOutcome
  | .memory_usage => .success [⟨[], [(1, .num 50)]⟩]
  | .memory_limit => .success [⟨[], [(1, .num 200)]⟩]
  | _ => .skipped

/-- The data point produced by `exampleResultsMem` for service "s". -/
def exampleEntryMem : Entry :=
  { timestamp := 1000
    container_name := "s"
    cpu := { percent := 0 }
    memory := { usage := 50, limit := 200, percent := 25 }
    network := { rxRate := 0, txRate := 0, rxBytes := 0, txBytes := 0 } }

/-- Concrete query results used as a verification example: a single
cpu-percent sample at timestamp 2s. -/
def exampleResultsCpu : MetricName → QueryOutcome
  | .cpu_percent => .success [⟨[], [(2, .num 1)]⟩]
  | _ => .skipped

/-- Invariant of the `all_metrics` accumulation: every stored data point
carries its own key as its timestamp, and still has the pre-initialised zero
memory percentage (the percentage is only derived in the finalisation pass of
server.py lines 202-206). -/
def EntryInv (m : AllMetrics) : Prop :=
  ∀ ts e, m.lookup ts = some e → e.timestamp = ts ∧ e.memory.percent = 0

/-- C6: a backend scalar that fails numeric conversion (`float` raises) leaves
the data point exactly as it was — in particular the pre-initialised zero of
the metric being parsed stays in place — and no exception escapes the parsing
step: the embedded except-handler returns the unchanged entry
(server.py lines 170-186). -/
theorem C6_parse_failure_defaults_to_zero (metric_name : MetricName)
    (value_str : PromScalar) (e : Entry) (t : ℤ) (c : String)
    (h : parseScalar value_str = none) :
    applyMetric metric_name value_str e = e ∧
    metricField metric_name (applyMetric metric_name value_str (initEntry t c)) = 0 := by
  have h1 : ∀ e' : Entry, applyMetric metric_name value_str e' = e' := by
    intro e'
    unfold applyMetric
    rw [h]
  refine ⟨h1 e, ?_⟩
  rw [h1]
  cases metric_name <;> simp [metricField, initEntry]

/-- Witness for C6 at the invalid scalar and the cpu-percent metric. -/
theorem C6_witness :
    parseScalar .invalid = none ∧
    applyMetric .cpu_percent .invalid (initEntry 3 "x") = initEntry 3 "x" ∧
    metricField .cpu_percent (applyMetric .cpu_percent .invalid (initEntry 3 "x")) = 0 := by
  refine ⟨rfl, ?_, ?_⟩
  · exact (C6_parse_failure_defaults_to_zero .cpu_percent .invalid (initEntry 3 "x") 3 "x" rfl).1
  · exact (C6_parse_failure_defaults_to_zero .cpu_percent .invalid (initEntry 3 "x") 3 "x" rfl).2

/-- C5: a request whose body is absent, or whose body lacks a truthy
start_time or end_time, is answered with the 400 validation response before
any backend query happens (the list of services fetched is empty, for every
possible backend), and nothing else is created or changed — the handler
touches no other state (server.py lines 31-41). -/
theorem C5_validation_rejected_before_fetch (fetch : String → ServiceOutcome)
    (data : RequestBody)
    (h : truthy data.start_time = false ∨ truthy data.end_time = false) :
    get_historical_metrics (.ok none) fetch = (.badRequest "Request body required", []) ∧
    get_historical_metrics (.ok (some data)) fetch =
      (.badRequest "start_time and end_time required", []) := by
  refine ⟨rfl, ?_⟩
  unfold get_historical_metrics
  rcases h with h | h <;> simp [h]

/-- Witness for C5 at a body missing start_time, with a backend double whose
every call would raise. -/
theorem C5_witness :
    truthy (none : Option ℚ) = false ∧
    get_historical_metrics (.ok none) (fun _ => .raises) =
      (.badRequest "Request body required", []) ∧
    get_historical_metrics (.ok (some ⟨none, some 9, none⟩)) (fun _ => .raises) =
      (.badRequest "start_time and end_time required", []) := by
  refine ⟨rfl, ?_, ?_⟩
  · exact (C5_validation_rejected_before_fetch (fun _ => .raises) ⟨none, some 9, none⟩
      (Or.inl rfl)).1
  · exact (C5_validation_rejected_before_fetch (fun _ => .raises) ⟨none, some 9, none⟩
      (Or.inl rfl)).2

/-- C9: a start_time or end_time that is present but equal to 0 is rejected
with exactly the same validation response as an absent field, because the
check `if not start_time or not end_time` tests truthiness, and 0 is falsy
(server.py lines 36-41). -/
theorem C9_zero_treated_as_missing (fetch : String → ServiceOutcome)
    (st et : Option ℚ) (simT : Option String) :
    get_historical_metrics (.ok (some ⟨some 0, et, simT⟩)) fetch =
      (.badRequest "start_time and end_time required", []) ∧
    get_historical_metrics (.ok (some ⟨st, some 0, simT⟩)) fetch =
      (.badRequest "start_time and end_time required", []) ∧
    get_historical_metrics (.ok (some ⟨none, et, simT⟩)) fetch =
      (.badRequest "start_time and end_time required", []) := by
  refine ⟨?_, ?_, ?_⟩ <;>
    · unfold get_historical_metrics
      simp [truthy]

/-- C7 counterexample: the claim says container identification consults
exactly one container-identifying label plus a single alternate. The code
consults four: each of the four label keys, alone, can determine the result,
so no pair of labels accounts for the observed behaviour
(server.py lines 226-230). -/
theorem C7_counterexample :
    extract_container_name [("name", "arpas-redis-1")] "redis" = "arpas-redis-1" ∧
    extract_container_name
        [("container_label_com_docker_compose_service", "redis")] "redis" = "redis" ∧
    extract_container_name [("container_name", "arpas-redis-1")] "redis" = "arpas-redis-1" ∧
    extract_container_name [("instance", "host:9090-redis")] "redis" = "host:9090-redis" ∧
    extract_container_name [] "redis" = "redis" := by
  refine ⟨?_, ?_, ?_, ?_, ?_⟩ <;> decide

/-- C7 amended: container identification tries the four label keys `name`,
`container_label_com_docker_compose_service`, `container_name` and `instance`
in that order; the first key that is present and whose value contains the
service name (case-insensitively) wins outright — results of different labels
are never merged — and if no key matches, the service name itself is
returned. -/
theorem C7_amended_four_label_chain (metric_labels : List (String × String))
    (service_name : String) :
    extract_container_name metric_labels service_name =
      ((label_keys.filterMap fun label_key =>
          (metric_labels.lookup label_key).bind fun nm =>
            if containsCI service_name nm then some nm else none).head?).getD
        service_name := by
  have key : ∀ ks : List String,
      tryLabelKeys metric_labels service_name ks =
        (ks.filterMap fun label_key =>
            (metric_labels.lookup label_key).bind fun nm =>
              if containsCI service_name nm then some nm else none).head? := by
    intro ks
    induction ks with
    | nil => rfl
    | cons k rest ih =>
      rw [List.filterMap_cons]
      cases h : metric_labels.lookup k with
      | none => simpa [tryLabelKeys, h] using ih
      | some nm =>
        by_cases hc : containsCI service_name nm
        · simp [tryLabelKeys, h, hc]
        · simpa [tryLabelKeys, h, hc] using ih
  unfold extract_container_name
  rw [key label_keys]

/-- C3: outcome trichotomy of the historical-metrics endpoint for a valid
request — an unexpected error while reading the body yields the generic 500
failure; if the per-service collection comes back empty the endpoint answers
404 Not-Found; otherwise it answers 200 with the collected per-service
metrics (server.py lines 81-98). -/
theorem C3_endpoint_outcomes (data : RequestBody) (fetch : String → ServiceOutcome)
    (hs : truthy data.start_time = true) (he : truthy data.end_time = true) :
    (get_historical_metrics (.error ()) fetch).1 = .serverError ∧
    (collectMetrics fetch (serviceLabelsFor (data.simulation_type.getD "optimized")) = [] →
      (get_historical_metrics (.ok (some data)) fetch).1 = .notFound) ∧
    (collectMetrics fetch (serviceLabelsFor (data.simulation_type.getD "optimized")) ≠ [] →
      (get_historical_metrics (.ok (some data)) fetch).1 =
        .ok (data.simulation_type.getD "optimized")
          (data.start_time.getD 0) (data.end_time.getD 0)
          (data.end_time.getD 0 - data.start_time.getD 0)
          ((collectMetrics fetch
              (serviceLabelsFor (data.simulation_type.getD "optimized"))).map Prod.fst)
          (collectMetrics fetch
            (serviceLabelsFor (data.simulation_type.getD "optimized")))) := by
  refine ⟨rfl, ?_, ?_⟩ <;>
    · intro h
      unfold get_historical_metrics
      simp [hs, he, h]

/-- C4 counterexample: with a valid body and a backend double for which the
fetch of "redis" raises while the other three services return one data point
each, the endpoint still answers 200, but the response carries no record of
"redis" at all — the failed item is only logged, never accumulated as a
per-item error record (server.py lines 77-79 merely print and continue). -/
theorem C4_counterexample :
    (get_historical_metrics (.ok (some ⟨some 5, some 9, none⟩))
        (fun s => if s = "redis" then .raises else .value (some [initEntry 0 s]))).1 =
      .ok "optimized" 5 9 4
        ["prediction_service", "storage-service", "minio"]
        [("prediction_service", [initEntry 0 "prediction_service"]),
         ("storage-service", [initEntry 0 "storage-service"]),
         ("minio", [initEntry 0 "minio"])] ∧
    "redis" ∉ ["prediction_service", "storage-service", "minio"] ∧
    "redis" ∉
      ([("prediction_service", [initEntry 0 "prediction_service"]),
        ("storage-service", [initEntry 0 "storage-service"]),
        ("minio", [initEntry 0 "minio"])].map Prod.fst) := by
  refine ⟨?_, by decide, by decide⟩
  have hcol : collectMetrics
      (fun s => if s = "redis" then .raises else .value (some [initEntry 0 s]))
      (serviceLabelsFor "optimized") =
      [("prediction_service", [initEntry 0 "prediction_service"]),
       ("storage-service", [initEntry 0 "storage-service"]),
       ("minio", [initEntry 0 "minio"])] := by
    simp [collectMetrics, serviceLabelsFor]
  unfold get_historical_metrics
  norm_num [truthy, hcol]

/-- C4 amended: a failure while fetching one service's metrics never fails the
whole operation — every service of the simulation's list is still consulted,
and the response is still the 200 success as long as at least one service
yields data — but failed services are silently omitted: no per-item error
record of them appears anywhere in the response. -/
theorem C4_amended_failures_skipped (data : RequestBody)
    (fetch : String → ServiceOutcome)
    (hs : truthy data.start_time = true) (he : truthy data.end_time = true) :
    (get_historical_metrics (.ok (some data)) fetch).2 =
      serviceLabelsFor (data.simulation_type.getD "optimized") ∧
    (∀ s, fetch s = .raises →
      s ∉ (collectMetrics fetch
        (serviceLabelsFor (data.simulation_type.getD "optimized"))).map Prod.fst) ∧
    (∀ s d, s ∈ serviceLabelsFor (data.simulation_type.getD "optimized") →
      fetch s = .value (some d) → d ≠ [] →
      ((get_historical_metrics (.ok (some data)) fetch).1).isOk = true) := by
  refine ⟨?_, ?_, ?_⟩
  · unfold get_historical_metrics
    simp only [hs, he, Bool.not_true, Bool.or_self, Bool.false_eq_true, if_false]
    split <;> rfl
  · intro s hraise hmem
    rw [List.mem_map] at hmem
    obtain ⟨x, hx, hx1⟩ := hmem
    rw [collectMetrics, List.mem_filterMap] at hx
    obtain ⟨service, _, hmatch⟩ := hx
    cases hf : fetch service with
    | raises => rw [hf] at hmatch; exact absurd hmatch (by simp)
    | value r =>
      rw [hf] at hmatch
      cases r with
      | none => exact absurd hmatch (by simp)
      | some sm =>
        by_cases hne : sm.isEmpty
        · simp [hne] at hmatch
        · simp only [hne, if_false, Option.some.injEq, Bool.false_eq_true] at hmatch
          rw [← hmatch] at hx1
          rw [show ((service, sm).1 : String) = service from rfl] at hx1
          rw [hx1] at hf
          rw [hf] at hraise
          exact absurd hraise (by simp)
  · intro s d hsmem hfd hdne
    have hmem : (s, d) ∈ collectMetrics fetch
        (serviceLabelsFor (data.simulation_type.getD "optimized")) := by
      rw [collectMetrics, List.mem_filterMap]
      refine ⟨s, hsmem, ?_⟩
      rw [hfd]
      simp [List.isEmpty_iff, hdne]
    have hne : collectMetrics fetch
        (serviceLabelsFor (data.simulation_type.getD "optimized")) ≠ [] := by
      intro hnil
      rw [hnil] at hmem
      exact absurd hmem (List.not_mem_nil _)
    unfold get_historical_metrics
    simp [hs, he, List.isEmpty_iff, hne, Response.isOk]

/-- Witness for C4 at a valid body and a backend double for which only the
fetch of "minio" raises. -/
theorem C4_amended_witness :
    (get_historical_metrics (.ok (some ⟨some 5, some 9, none⟩))
        (fun s => if s = "minio" then .raises else .value (some [initEntry 0 s]))).2 =
      serviceLabelsFor ((none : Option String).getD "optimized") ∧
    "minio" ∉ (collectMetrics
        (fun s => if s = "minio" then .raises else .value (some [initEntry 0 s]))
        (serviceLabelsFor ((none : Option String).getD "optimized"))).map Prod.fst ∧
    ((get_historical_metrics (.ok (some ⟨some 5, some 9, none⟩))
        (fun s => if s = "minio" then .raises else .value (some [initEntry 0 s]))).1).isOk
      = true := by
  have h := C4_amended_failures_skipped ⟨some 5, some 9, none⟩
      (fun s => if s = "minio" then .raises else .value (some [initEntry 0 s]))
      (by norm_num [truthy]) (by norm_num [truthy])
  refine ⟨h.1, h.2.1 "minio" (by simp), ?_⟩
  exact h.2.2 "prediction_service" [initEntry 0 "prediction_service"]
    (by simp [serviceLabelsFor]) (by simp) (by simp)

/-- Witness for C3 at a valid body and a backend double for which every
service fetch returns None: the endpoint answers 404. -/
theorem C3_witness :
    truthy (some (5 : ℚ)) = true ∧
    collectMetrics (fun _ => .value none)
      (serviceLabelsFor ((none : Option String).getD "optimized")) = [] ∧
    (get_historical_metrics (.ok (some ⟨some 5, some 9, none⟩)) (fun _ => .value none)).1 =
      .notFound := by
  refine ⟨by norm_num [truthy], rfl, ?_⟩
  exact (C3_endpoint_outcomes ⟨some 5, some 9, none⟩ (fun _ => .value none)
    (by norm_num [truthy]) (by norm_num [truthy])).2.1 rfl

/-- Characterisation of the aggregation fold from an arbitrary starting
total. -/
theorem combine_foldl_characterisation (gs : List GroupRollup) :
    ∀ t : Totals,
      (gs.foldl combineStep t).cpuSeconds =
        t.cpuSeconds + (gs.map GroupRollup.cpuSeconds).sum ∧
      (gs.foldl combineStep t).memPeakBytes =
        (gs.map GroupRollup.memPeakBytes).foldl max t.memPeakBytes ∧
      (gs.foldl combineStep t).netBytes =
        t.netBytes + (gs.map GroupRollup.netBytes).sum ∧
      (gs.foldl combineStep t).ioBytes =
        t.ioBytes + (gs.map GroupRollup.ioBytes).sum := by
  induction gs with
  | nil => intro t; simp
  | cons g gs ih =>
    intro t
    refine ⟨?_, ?_, ?_, ?_⟩ <;>
      simp only [List.foldl_cons, List.map_cons, List.sum_cons]
    · rw [(ih (combineStep t g)).1]
      simp [combineStep]
      ring
    · rw [(ih (combineStep t g)).2.1]
      simp [combineStep]
    · rw [(ih (combineStep t g)).2.2.1]
      simp [combineStep]
      ring
    · rw [(ih (combineStep t g)).2.2.2]
      simp [combineStep]
      ring

/-- The starting value and every element of a list bound its max-fold. -/
theorem foldl_max_bounds (l : List ℚ) :
    ∀ a : ℚ, a ≤ l.foldl max a ∧ ∀ x ∈ l, x ≤ l.foldl max a := by
  induction l with
  | nil =>
    intro a
    exact ⟨le_refl a, by simp⟩
  | cons y ys ih =>
    intro a
    refine ⟨le_trans (le_max_left a y) (ih (max a y)).1, ?_⟩
    intro x hx
    rcases List.mem_cons.mp hx with rfl | hx
    · exact le_trans (le_max_right a x) (ih (max a x)).1
    · exact (ih (max a y)).2 x hx

/-- A max-fold returns its starting value or an element of the list. -/
theorem foldl_max_mem (l : List ℚ) :
    ∀ a : ℚ, l.foldl max a = a ∨ l.foldl max a ∈ l := by
  induction l with
  | nil => intro a; exact Or.inl rfl
  | cons y ys ih =>
    intro a
    rcases ih (max a y) with h | h
    · rcases max_cases a y with ⟨hm, _⟩ | ⟨hm, _⟩
      · left
        rw [List.foldl_cons, h, hm]
      · right
        rw [List.foldl_cons, h, hm]
        exact List.mem_cons_self y ys
    · right
      exact List.mem_cons_of_mem y h

/-- C2: combine sums cpuSeconds, netBytes and ioBytes across the groups and
takes the maximum of memPeakBytes (for any non-empty list of groups with
non-negative peaks, the total peak is an element and an upper bound, i.e. the
maximum); the empty list yields all-zero totals. -/
theorem C2_combine_totals (gs : List GroupRollup)
    (h0 : ∀ g ∈ gs, 0 ≤ g.memPeakBytes) :
    (combine gs).cpuSeconds = (gs.map GroupRollup.cpuSeconds).sum ∧
    (combine gs).netBytes = (gs.map GroupRollup.netBytes).sum ∧
    (combine gs).ioBytes = (gs.map GroupRollup.ioBytes).sum ∧
    (∀ g ∈ gs, g.memPeakBytes ≤ (combine gs).memPeakBytes) ∧
    (gs ≠ [] → (combine gs).memPeakBytes ∈ gs.map GroupRollup.memPeakBytes) ∧
    combine ([] : List GroupRollup) = ⟨0, 0, 0, 0⟩ := by
  obtain ⟨h1, h2, h3, h4⟩ := combine_foldl_characterisation gs ⟨0, 0, 0, 0⟩
  have hcpu : (combine gs).cpuSeconds = (gs.map GroupRollup.cpuSeconds).sum := by
    unfold combine
    rw [h1]
    simp
  have hmem : (combine gs).memPeakBytes =
      (gs.map GroupRollup.memPeakBytes).foldl max 0 := by
    unfold combine
    rw [h2]
  have hnet : (combine gs).netBytes = (gs.map GroupRollup.netBytes).sum := by
    unfold combine
    rw [h3]
    simp
  have hio : (combine gs).ioBytes = (gs.map GroupRollup.ioBytes).sum := by
    unfold combine
    rw [h4]
    simp
  refine ⟨hcpu, hnet, hio, ?_, ?_, rfl⟩
  · intro g hg
    rw [hmem]
    exact (foldl_max_bounds (gs.map GroupRollup.memPeakBytes) 0).2
      g.memPeakBytes (List.mem_map_of_mem GroupRollup.memPeakBytes hg)
  · intro hne
    rw [hmem]
    rcases foldl_max_mem (gs.map GroupRollup.memPeakBytes) 0 with h | h
    · cases gs with
      | nil => exact absurd rfl hne
      | cons g gs' =>
        have hle : g.memPeakBytes ≤ 0 := by
          have hb := (foldl_max_bounds ((g :: gs').map GroupRollup.memPeakBytes) 0).2
            g.memPeakBytes (by simp)
          rw [h] at hb
          exact hb
        have hz : g.memPeakBytes = 0 := le_antisymm hle (h0 g (by simp))
        rw [h, ← hz]
        exact List.mem_map_of_mem GroupRollup.memPeakBytes (by simp)
    · exact h

/-- Witness for C2 at the spec's concrete scenario: groups (2, 100, 10, 1)
and (3, 50, 20, 2). -/
theorem C2_witness :
    (∀ g ∈ [(⟨2, 100, 10, 1, []⟩ : GroupRollup), ⟨3, 50, 20, 2, []⟩],
      0 ≤ g.memPeakBytes) ∧
    (combine [(⟨2, 100, 10, 1, []⟩ : GroupRollup), ⟨3, 50, 20, 2, []⟩]).cpuSeconds =
      ([(⟨2, 100, 10, 1, []⟩ : GroupRollup), ⟨3, 50, 20, 2, []⟩].map
        GroupRollup.cpuSeconds).sum ∧
    combine ([] : List GroupRollup) = ⟨0, 0, 0, 0⟩ := by
  have h0 : ∀ g ∈ [(⟨2, 100, 10, 1, []⟩ : GroupRollup), ⟨3, 50, 20, 2, []⟩],
      0 ≤ g.memPeakBytes := by
    intro g hg
    rcases List.mem_cons.mp hg with rfl | hg
    · norm_num
    · rcases List.mem_cons.mp hg with rfl | hg
      · norm_num
      · exact absurd hg (List.not_mem_nil g)
  have h := C2_combine_totals _ h0
  exact ⟨h0, h.1, h.2.2.2.2.2⟩

/-- A successful submission issues the state's next id and stores a pending
job under it. -/
theorem submit_eq_some (st : JobsState) (p : SubmitPayload) (jid : ℕ)
    (st' : JobsState) (h : submit st p = some (jid, st')) :
    jid = st.nextId ∧
      st' = ⟨st.nextId + 1, st.jobs.insert st.nextId ⟨.pending, none, none⟩⟩ := by
  unfold submit at h
  split at h
  · exact absurd h (by simp)
  · simp only [Option.some.injEq, Prod.mk.injEq] at h
    exact ⟨h.1.symm, h.2.symm⟩

/-- A terminal write never adds a new id to the registry. -/
theorem mem_finishJob_jobs (st : JobsState) (fid : ℕ) (o : JobOutcome) (id : ℕ)
    (h : id ∈ (finishJob st fid o).jobs) : id ∈ st.jobs := by
  unfold finishJob at h
  cases hl : st.jobs.lookup fid with
  | none =>
    rw [hl] at h
    exact h
  | some j =>
    rw [hl] at h
    rcases (AList.mem_insert _).mp h with rfl | h2
    · exact AList.lookup_isSome.mp (by simp [hl])
    · exact h2

/-- Every id present in the registry after replaying a history was either
present at the start or issued by one of the history's submissions. -/
theorem jobs_mem_runFrom (es : List Event) :
    ∀ (st : JobsState) (id : ℕ), id ∈ (runFrom st es).jobs →
      id ∈ st.jobs ∨ id ∈ issuedIdsFrom st es := by
  induction es with
  | nil =>
    intro st id h
    exact Or.inl (by simpa [runFrom] using h)
  | cons e es ih =>
    intro st id h
    have hstep : runFrom st (e :: es) = runFrom (applyEvent st e) es := by
      simp [runFrom]
    rw [hstep] at h
    cases e with
    | submission p =>
      cases hs : submit st p with
      | none =>
        have hae : applyEvent st (.submission p) = st := by simp [applyEvent, hs]
        rw [hae] at h
        have hiss : issuedIdsFrom st (.submission p :: es) = issuedIdsFrom st es := by
          simp [issuedIdsFrom, hs]
        rw [hiss]
        exact ih st id h
      | some pr =>
        obtain ⟨jid, st'⟩ := pr
        have hae : applyEvent st (.submission p) = st' := by simp [applyEvent, hs]
        rw [hae] at h
        obtain ⟨hj, hst⟩ := submit_eq_some st p jid st' hs
        have hiss : issuedIdsFrom st (.submission p :: es) =
            jid :: issuedIdsFrom st' es := by
          simp [issuedIdsFrom, hs]
        rw [hiss]
        rcases ih st' id h with h1 | h1
        · rw [hst] at h1
          rcases (AList.mem_insert _).mp h1 with rfl | h2
          · right
            rw [hj]
            exact List.mem_cons_self _ _
          · exact Or.inl h2
        · right
          exact List.mem_cons_of_mem jid h1
    | terminal fid o =>
      have hae : applyEvent st (.terminal fid o) = finishJob st fid o := rfl
      rw [hae] at h
      have hiss : issuedIdsFrom st (.terminal fid o :: es) =
          issuedIdsFrom (finishJob st fid o) es := by
        simp [issuedIdsFrom]
      rw [hiss]
      rcases ih _ id h with h1 | h1
      · exact Or.inl (mem_finishJob_jobs st fid o id h1)
      · exact Or.inr h1

/-- C1: a job id never issued by any submission of the history polls as
NotFound; an id present in the registry polls as the current snapshot of its
record; and polling never mutates the state, so repeated polls — in
particular of a completed job — return identical results. -/
theorem C1_poll_contract :
    (∀ (es : List Event) (jobId : ℕ), jobId ∉ issuedIds es →
      (poll (runEvents es) jobId).1 = .notFound) ∧
    (∀ (st : JobsState) (jobId : ℕ) (job : Job), st.jobs.lookup jobId = some job →
      poll st jobId = (.snapshot job.status job.result job.error, st)) ∧
    (∀ (st : JobsState) (jobId : ℕ),
      (poll st jobId).2 = st ∧
      (poll (poll st jobId).2 jobId).1 = (poll st jobId).1) := by
  refine ⟨?_, ?_, ?_⟩
  · intro es jobId hni
    have hnm : jobId ∉ (runEvents es).jobs := by
      intro hmem
      rcases jobs_mem_runFrom es initState jobId hmem with h | h
      · exact AList.not_mem_empty jobId h
      · exact hni h
    have hl : (runEvents es).jobs.lookup jobId = none := AList.lookup_eq_none.mpr hnm
    unfold poll
    rw [hl]
  · intro st jobId job h
    unfold poll
    rw [h]
  · intro st jobId
    unfold poll
    cases h : st.jobs.lookup jobId <;> simp [h]

/-- Witness for C1: id 7 was never issued by the empty history and polls as
NotFound; id 0 of a registry holding one completed job polls as its snapshot,
with the state unchanged. -/
theorem C1_witness :
    ((7 : ℕ) ∉ issuedIds []) ∧
    (poll (runEvents []) 7).1 = .notFound ∧
    poll ⟨1, AList.insert 0 ⟨.done, none, none⟩ ∅⟩ 0 =
      (.snapshot .done none none, ⟨1, AList.insert 0 ⟨.done, none, none⟩ ∅⟩) ∧
    (poll ⟨1, AList.insert 0 ⟨.done, none, none⟩ ∅⟩ 0).2 =
      ⟨1, AList.insert 0 ⟨.done, none, none⟩ ∅⟩ := by
  have h7 : (7 : ℕ) ∉ issuedIds [] := by simp [issuedIds, issuedIdsFrom]
  refine ⟨h7, C1_poll_contract.1 [] 7 h7, ?_, ?_⟩
  · exact C1_poll_contract.2.1 _ 0 ⟨.done, none, none⟩ (AList.lookup_insert _)
  · exact (C1_poll_contract.2.2 _ 0).1

/-- The parse-and-assign step never changes the timestamp field. -/
theorem applyMetric_timestamp (m : MetricName) (v : PromScalar) (e : Entry) :
    (applyMetric m v e).timestamp = e.timestamp := by
  cases v <;> cases m <;> rfl

/-- The parse-and-assign step never writes the memory.percent field. -/
theorem applyMetric_mem_percent (m : MetricName) (v : PromScalar) (e : Entry) :
    (applyMetric m v e).memory.percent = e.memory.percent := by
  cases v <;> cases m <;> rfl

/-- Lookup of the key just stored. -/
theorem lookup_store_self (m : AllMetrics) (k : ℤ) (e : Entry) :
    (m.store k e).lookup k = some e :=
  AList.lookup_insert m

/-- Lookup of a different key passes through a store. -/
theorem lookup_store_ne (m : AllMetrics) (a k : ℤ) (e : Entry) (h : k ≠ a) :
    (m.store a e).lookup k = m.lookup k :=
  AList.lookup_insert_ne h

/-- Lookup in the empty dict. -/
theorem lookup_empty_allMetrics (k : ℤ) : (∅ : AllMetrics).lookup k = none := rfl

/-- Keys of the empty dict. -/
theorem keyList_empty : (∅ : AllMetrics).keyList = [] := rfl

/-- Keys after a store. -/
theorem keyList_store (m : AllMetrics) (k : ℤ) (e : Entry) :
    (m.store k e).keyList = k :: m.keyList.erase k :=
  AList.keys_insert m

/-- Key membership after a store. -/
theorem mem_keyList_store (m : AllMetrics) (a k : ℤ) (e : Entry) :
    k ∈ (m.store a e).keyList ↔ k = a ∨ k ∈ m.keyList := by
  show k ∈ (AList.insert a e m).keys ↔ k = a ∨ k ∈ AList.keys m
  rw [← AList.mem_keys, ← AList.mem_keys]
  exact AList.mem_insert m

/-- A key of the dict has a stored value. -/
theorem lookup_of_mem_keyList (m : AllMetrics) (k : ℤ) (h : k ∈ m.keyList) :
    ∃ e, m.lookup k = some e := by
  have hm : k ∈ m := AList.mem_keys.mpr h
  rcases Option.isSome_iff_exists.mp (AList.lookup_isSome.mpr hm) with ⟨e, he⟩
  exact ⟨e, he⟩

/-- The invariant holds of the empty dict. -/
theorem entryInv_empty : EntryInv ∅ := by
  intro ts e h
  rw [lookup_empty_allMetrics] at h
  exact absurd h (by simp)

/-- A fold of invariant-preserving steps preserves the invariant. -/
theorem entryInv_foldl {α : Type} (f : AllMetrics → α → AllMetrics)
    (hf : ∀ acc x, EntryInv acc → EntryInv (f acc x)) (l : List α) :
    ∀ acc : AllMetrics, EntryInv acc → EntryInv (l.foldl f acc) := by
  induction l with
  | nil => intro acc h; exact h
  | cons x xs ih => intro acc h; exact ih (f acc x) (hf acc x h)

/-- Processing one value preserves the invariant. -/
theorem entryInv_processValue (mn : MetricName) (cn : String) (acc : AllMetrics)
    (v : ℚ × PromScalar) (h : EntryInv acc) : EntryInv (processValue mn cn acc v) := by
  intro ts e hl
  simp only [processValue] at hl
  by_cases hts : ts = pyTrunc (v.1 * 1000)
  · rw [hts, lookup_store_self] at hl
    have he : applyMetric mn v.2
        ((acc.lookup (pyTrunc (v.1 * 1000))).getD
          (initEntry (pyTrunc (v.1 * 1000)) cn)) = e := Option.some_inj.mp hl
    rw [← he, hts, applyMetric_timestamp, applyMetric_mem_percent]
    cases hc : acc.lookup (pyTrunc (v.1 * 1000)) with
    | none => simp [initEntry]
    | some e0 =>
      have := h _ _ hc
      simpa using this
  · rw [lookup_store_ne _ _ _ _ hts] at hl
    exact h ts e hl

/-- Processing one series preserves the invariant. -/
theorem entryInv_processSeries (sn : String) (mn : MetricName) (acc : AllMetrics)
    (series : Series) (h : EntryInv acc) : EntryInv (processSeries sn mn acc series) :=
  entryInv_foldl _ (fun acc' v h' => entryInv_processValue mn _ acc' v h')
    series.values acc h

/-- Processing one metric preserves the invariant. -/
theorem entryInv_processMetric (sn : String) (results : MetricName → QueryOutcome)
    (acc : AllMetrics) (mn : MetricName) (h : EntryInv acc) :
    EntryInv (processMetric sn results acc mn) := by
  unfold processMetric
  cases results mn with
  | skipped => exact h
  | success sl =>
    exact entryInv_foldl _ (fun acc' s h' => entryInv_processSeries sn mn acc' s h')
      sl acc h

/-- The accumulated dict satisfies the invariant. -/
theorem entryInv_buildAllMetrics (sn : String) (results : MetricName → QueryOutcome) :
    EntryInv (buildAllMetrics sn results) := by
  unfold buildAllMetrics
  exact entryInv_foldl _ (fun acc mn h => entryInv_processMetric sn results acc mn h)
    queries ∅ entryInv_empty

/-- Field behaviour of the finalisation pass: timestamp, memory usage and
memory limit are preserved, and the memory percentage is derived exactly when
the limit is positive. -/
theorem finalizeEntry_fields (e : Entry) :
    (finalizeEntry e).timestamp = e.timestamp ∧
    (finalizeEntry e).memory.usage = e.memory.usage ∧
    (finalizeEntry e).memory.limit = e.memory.limit ∧
    (finalizeEntry e).memory.percent =
      (if 0 < e.memory.limit then
        pyRound2 (((e.memory.usage : ℚ) / (e.memory.limit : ℚ)) * 100)
      else e.memory.percent) := by
  unfold finalizeEntry
  by_cases h : 0 < e.memory.limit <;> simp [h]

/-- The sorted key list is sorted with respect to ≤. -/
theorem sortedKeys_sorted_le (m : AllMetrics) : (sortedKeys m).Sorted (· ≤ ·) := by
  have h := @List.sorted_mergeSort ℤ (fun a b : ℤ => a ≤ b)
    (fun a b c h₁ h₂ => by simpa using le_trans (by simpa using h₁) (by simpa using h₂))
    (fun a b => by simpa using le_total a b) m.keyList
  simpa [sortedKeys] using h

/-- Sorting the keys permutes them. -/
theorem sortedKeys_perm (m : AllMetrics) : List.Perm (sortedKeys m) m.keyList :=
  List.mergeSort_perm m.keyList _

/-- The sorted key list has no duplicates (dict keys are unique). -/
theorem sortedKeys_nodup (m : AllMetrics) : (sortedKeys m).Nodup :=
  ((sortedKeys_perm m).nodup_iff).mpr (AList.keys_nodup m)

/-- The sorted key list is strictly sorted. -/
theorem sortedKeys_sorted_lt (m : AllMetrics) : (sortedKeys m).Sorted (· < ·) :=
  (sortedKeys_sorted_le m).lt_of_le (sortedKeys_nodup m)

/-- Membership in the sorted key list. -/
theorem mem_sortedKeys (m : AllMetrics) (k : ℤ) : k ∈ sortedKeys m ↔ k ∈ m.keyList :=
  (sortedKeys_perm m).mem_iff

/-- A pointwise-identity map is the identity. -/
theorem map_congr_self (l : List ℤ) (f : ℤ → ℤ) (h : ∀ a ∈ l, f a = a) :
    l.map f = l := by
  induction l with
  | nil => rfl
  | cons x xs ih =>
    rw [List.map_cons, h x (List.mem_cons_self x xs),
      ih (fun a ha => h a (List.mem_cons_of_mem x ha))]

/-- The timestamps of the emitted data points are exactly the sorted keys of
the accumulated dict. -/
theorem fetch_map_timestamp (sn : String) (results : MetricName → QueryOutcome) :
    (fetch_service_metrics sn results).map Entry.timestamp =
      sortedKeys (buildAllMetrics sn results) := by
  unfold fetch_service_metrics
  rw [List.map_map]
  apply map_congr_self
  intro ts hts
  rcases lookup_of_mem_keyList _ ts ((mem_sortedKeys _ ts).mp hts) with ⟨e0, he0⟩
  have hinv := entryInv_buildAllMetrics sn results ts e0 he0
  simp only [Function.comp_apply, he0, Option.getD_some]
  rw [(finalizeEntry_fields e0).1, hinv.1]

/-- C8: every produced data point has memory percentage equal to
usage/limit × 100 rounded to two decimals when the limit is positive, and
exactly 0 otherwise (the pre-initialised zero is never overwritten when the
limit is not positive; server.py lines 202-206). -/
theorem C8_memory_percent (service_name : String)
    (results : MetricName → QueryOutcome) (e : Entry)
    (h : e ∈ fetch_service_metrics service_name results) :
    e.memory.percent =
      if 0 < e.memory.limit then
        pyRound2 (((e.memory.usage : ℚ) / (e.memory.limit : ℚ)) * 100)
      else 0 := by
  unfold fetch_service_metrics at h
  rcases List.mem_map.mp h with ⟨ts, hts, rfl⟩
  rcases lookup_of_mem_keyList _ ts ((mem_sortedKeys _ ts).mp hts) with ⟨e0, he0⟩
  have hinv := entryInv_buildAllMetrics service_name results ts e0 he0
  obtain ⟨hf1, hf2, hf3, hf4⟩ := finalizeEntry_fields e0
  simp only [he0, Option.getD_some]
  rw [hf4, hf2, hf3]
  by_cases hl : 0 < e0.memory.limit
  · simp [hl]
  · simp [hl, hinv.2]

/-- Witness for C8: with one memory-usage sample of 50 and one memory-limit
sample of 200 at timestamp 1s, the produced data point has memory percentage
25. -/
theorem C8_witness :
    fetch_service_metrics "s" exampleResultsMem = [exampleEntryMem] ∧
    exampleEntryMem ∈ fetch_service_metrics "s" exampleResultsMem ∧
    exampleEntryMem.memory.percent =
      (if 0 < exampleEntryMem.memory.limit then
        pyRound2 (((exampleEntryMem.memory.usage : ℚ) /
          (exampleEntryMem.memory.limit : ℚ)) * 100)
      else 0) := by
  have hk : pyTrunc ((1 : ℚ) * 1000) = 1000 := by norm_num [pyTrunc]
  have hu : pyTrunc (50 : ℚ) = 50 := by norm_num [pyTrunc]
  have hli : pyTrunc (200 : ℚ) = 200 := by norm_num [pyTrunc]
  have h1000 : pyTrunc (1000 : ℚ) = 1000 := by norm_num [pyTrunc]
  have h25 : pyRound2 (25 : ℚ) = 25 := by norm_num [pyRound2, round_eq]
  have h0 : pyTrunc (0 : ℚ) = 0 := by norm_num [pyTrunc]
  have hm : fetch_service_metrics "s" exampleResultsMem = [exampleEntryMem] := by
    norm_num [fetch_service_metrics, buildAllMetrics, queries, processMetric,
      exampleResultsMem, processSeries, processValue, applyMetric, parseScalar,
      extract_container_name, tryLabelKeys, label_keys, initEntry, hk, hu, hli,
      sortedKeys, keyList_store, keyList_empty, lookup_store_self, lookup_store_ne,
      lookup_empty_allMetrics, List.mergeSort, finalizeEntry, step,
      exampleEntryMem, h1000, h25, h0]
  refine ⟨hm, ?_, ?_⟩
  · rw [hm]
    exact List.mem_cons_self _ _
  · exact C8_memory_percent "s" exampleResultsMem exampleEntryMem
      (by rw [hm]; exact List.mem_cons_self _ _)

/-- A fold of key-preserving steps preserves key membership. -/
theorem mem_keyList_foldl {α : Type} (f : AllMetrics → α → AllMetrics) (k : ℤ)
    (hf : ∀ acc x, k ∈ acc.keyList → k ∈ (f acc x).keyList) (l : List α) :
    ∀ acc, k ∈ acc.keyList → k ∈ (l.foldl f acc).keyList := by
  induction l with
  | nil => intro acc h; exact h
  | cons x xs ih => intro acc h; exact ih (f acc x) (hf acc x h)

/-- If some element of the fold's list forces a key in, and every step keeps
keys, the fold's result contains the key. -/
theorem mem_keyList_foldl_of_elem {α : Type} (f : AllMetrics → α → AllMetrics)
    (k : ℤ) (hf : ∀ acc x, k ∈ acc.keyList → k ∈ (f acc x).keyList) (x : α)
    (hstep : ∀ acc, k ∈ (f acc x).keyList) :
    ∀ l : List α, x ∈ l → ∀ acc, k ∈ (l.foldl f acc).keyList := by
  intro l
  induction l with
  | nil => intro hx; exact absurd hx (List.not_mem_nil x)
  | cons y ys ih =>
    intro hx acc
    rcases List.mem_cons.mp hx with rfl | hx'
    · exact mem_keyList_foldl f k hf ys (f acc x) (hstep acc)
    · exact ih hx' (f acc y)

/-- Processing a value keeps existing keys. -/
theorem keyMono_processValue (mn : MetricName) (cn : String) (k : ℤ)
    (acc : AllMetrics) (v : ℚ × PromScalar) (h : k ∈ acc.keyList) :
    k ∈ (processValue mn cn acc v).keyList := by
  simp only [processValue]
  exact (mem_keyList_store _ _ _ _).mpr (Or.inr h)

/-- Processing a series keeps existing keys. -/
theorem keyMono_processSeries (sn : String) (mn : MetricName) (k : ℤ)
    (acc : AllMetrics) (series : Series) (h : k ∈ acc.keyList) :
    k ∈ (processSeries sn mn acc series).keyList :=
  mem_keyList_foldl _ k (fun acc' v h' => keyMono_processValue mn _ k acc' v h')
    series.values acc h

/-- Processing a metric keeps existing keys. -/
theorem keyMono_processMetric (sn : String) (results : MetricName → QueryOutcome)
    (k : ℤ) (acc : AllMetrics) (mn : MetricName) (h : k ∈ acc.keyList) :
    k ∈ (processMetric sn results acc mn).keyList := by
  unfold processMetric
  cases results mn with
  | skipped => exact h
  | success sl =>
    exact mem_keyList_foldl _ k
      (fun acc' s h' => keyMono_processSeries sn mn k acc' s h') sl acc h

/-- Processing a value adds its own timestamp key. -/
theorem processValue_adds_key (mn : MetricName) (cn : String) (acc : AllMetrics)
    (v : ℚ × PromScalar) :
    pyTrunc (v.1 * 1000) ∈ (processValue mn cn acc v).keyList := by
  simp only [processValue]
  exact (mem_keyList_store _ _ _ _).mpr (Or.inl rfl)

/-- Every timestamp of every processed series of every successful metric ends
up as a key of the accumulated dict. -/
theorem mem_keyList_buildAllMetrics (sn : String)
    (results : MetricName → QueryOutcome) (mn : MetricName) (hmn : mn ∈ queries)
    (sl : List Series) (hsl : results mn = .success sl) (series : Series)
    (hse : series ∈ sl) (v : ℚ × PromScalar) (hv : v ∈ series.values) :
    pyTrunc (v.1 * 1000) ∈ (buildAllMetrics sn results).keyList := by
  have hstepS : ∀ acc, pyTrunc (v.1 * 1000) ∈ (processSeries sn mn acc series).keyList := by
    intro acc
    unfold processSeries
    exact mem_keyList_foldl_of_elem _ _
      (fun a v' h' => keyMono_processValue mn _ _ a v' h') v
      (fun a => processValue_adds_key mn _ a v) series.values hv acc
  have hstepM : ∀ acc, pyTrunc (v.1 * 1000) ∈ (processMetric sn results acc mn).keyList := by
    intro acc
    unfold processMetric
    rw [hsl]
    exact mem_keyList_foldl_of_elem _ _
      (fun a s h' => keyMono_processSeries sn mn _ a s h') series hstepS sl hse acc
  unfold buildAllMetrics
  exact mem_keyList_foldl_of_elem _ _
    (fun a m h' => keyMono_processMetric sn results _ a m h') mn hstepM queries hmn ∅

/-- C10: the data points of a successful per-service fetch are emitted in
strictly ascending timestamp order with no duplicate timestamps — one combined
entry per distinct timestamp — and every timestamp occurring in any processed
series of any of the five queried metrics appears among them
(server.py lines 197-213). -/
theorem C10_sorted_unique (service_name : String)
    (results : MetricName → QueryOutcome) :
    ((fetch_service_metrics service_name results).map Entry.timestamp).Sorted (· < ·) ∧
    ((fetch_service_metrics service_name results).map Entry.timestamp).Nodup ∧
    (∀ mn ∈ queries, ∀ sl, results mn = .success sl →
      ∀ series ∈ sl, ∀ v ∈ series.values,
        pyTrunc (v.1 * 1000) ∈
          (fetch_service_metrics service_name results).map Entry.timestamp) := by
  rw [fetch_map_timestamp]
  refine ⟨sortedKeys_sorted_lt _, sortedKeys_nodup _, ?_⟩
  intro mn hmn sl hsl series hse v hv
  exact (mem_sortedKeys _ _).mpr
    (mem_keyList_buildAllMetrics service_name results mn hmn sl hsl series hse v hv)

/-- Witness for C10: with one cpu-percent sample at timestamp 2s, the emitted
timestamps are strictly sorted and contain 2000 ms. -/
theorem C10_witness :
    MetricName.cpu_percent ∈ queries ∧
    exampleResultsCpu MetricName.cpu_percent = .success [⟨[], [(2, .num 1)]⟩] ∧
    ((fetch_service_metrics "s" exampleResultsCpu).map Entry.timestamp).Sorted (· < ·) ∧
    pyTrunc ((2 : ℚ) * 1000) ∈
      (fetch_service_metrics "s" exampleResultsCpu).map Entry.timestamp ∧
    pyTrunc ((2 : ℚ) * 1000) = 2000 := by
  have h := C10_sorted_unique "s" exampleResultsCpu
  refine ⟨by simp [queries], rfl, h.1, ?_, by norm_num [pyTrunc]⟩
  exact h.2.2 MetricName.cpu_percent (by simp [queries]) [⟨[], [(2, .num 1)]⟩] rfl
    ⟨[], [(2, .num 1)]⟩ (by simp) (2, .num 1) (by simp)

end DockerStats
